import Mathlib

/-!
Verification of the minha ANEM appointment-checking automation.

The development shallowly embeds the two Python source files
(`anem_automation.py`, `fetch.py`).  Pure string manipulation is embedded
as Lean functions on `String` (Lean strings are lists of characters, which
matches Python's sequence-of-code-points view for everything this program
does).  The browser-dependent control flow of `automate_anem_form` and
`wait_for_dialog_with_retry` is embedded as functions over an explicit
environment describing what the browser would have returned at each
interaction point; printing, sleeping and actual DOM access carry no
program logic and are dropped, while every branch decision, return value,
sound invocation and `driver.quit()` call is kept.
-/

/-! ## String primitives mirroring the Python string operations used -/

/-- The characters removed by Python's `str.strip()` with no argument
(ASCII whitespace; the program only ever feeds it spaces/tabs/newlines). -/
def isPySpace (c : Char) : Bool :=
  c == ' ' || c == '\t' || c == '\n' || c == '\r' || c == '\x0b' || c == '\x0c'

/-- Python `s.strip()`: drop leading and trailing whitespace. -/
def pyStrip (s : String) : String :=
  ⟨((s.data.dropWhile isPySpace).reverse.dropWhile isPySpace).reverse⟩

/-- Python `s.isdigit()` (restricted to the ASCII digits the program deals
in): `True` exactly when the string is non-empty and every character is a
digit. -/
def pyIsDigitStr (s : String) : Bool :=
  !s.data.isEmpty && s.data.all Char.isDigit

/-- `leadsWith needle hay` is true when `needle` is an initial segment of
`hay`; helper for Python's `startswith` and `in`. -/
def leadsWith : List Char → List Char → Bool
  | [], _ => true
  | _ :: _, [] => false
  | a :: an, b :: bn => a == b && leadsWith an bn

/-- Python `hay.startswith(needle)`. -/
def pyStartsWith (hay needle : String) : Bool :=
  leadsWith needle.data hay.data

/-- `occursIn needle hay`: `needle` occurs contiguously in `hay`;
helper for Python's `needle in hay`. -/
def occursIn (needle : List Char) : List Char → Bool
  | [] => leadsWith needle []
  | b :: t => leadsWith needle (b :: t) || occursIn needle t

/-- Python `needle in hay` on strings. -/
def pyContainsSub (hay needle : String) : Bool :=
  occursIn needle.data hay.data

/-- Python `s.lower()` (ASCII case folding, which is all the URL check
needs). -/
def pyLower (s : String) : String :=
  ⟨s.data.map Char.toLower⟩

/-! ## `AnemSettings.validate_numbers` (anem_automation.py lines 30-39)

```python
@field_validator("n1", "n2")
def validate_numbers(cls, v: str) -> str:
    if not v or not v.strip():
        raise ValueError("Number cannot be empty")
    v = v.strip()
    if not v.isdigit():
        raise ValueError("Number must contain only digits")
    return v
```
-/

/-- The `validate_numbers` field validator: raising `ValueError` is
embedded as `Except.error`. -/
def validate_numbers (v : String) : Except String String :=
  if v = "" ∨ pyStrip v = "" then Except.error "Number cannot be empty"
  else if ¬ (pyIsDigitStr (pyStrip v) = true) then
    Except.error "Number must contain only digits"
  else Except.ok (pyStrip v)

/-! ### Basic facts about stripping digit strings -/

theorem digit_not_pyspace (c : Char) (h : c.isDigit = true) :
    isPySpace c = false := by
  unfold isPySpace
  have h1 : c ≠ ' ' := by rintro rfl; exact absurd h (by decide)
  have h2 : c ≠ '\t' := by rintro rfl; exact absurd h (by decide)
  have h3 : c ≠ '\n' := by rintro rfl; exact absurd h (by decide)
  have h4 : c ≠ '\r' := by rintro rfl; exact absurd h (by decide)
  have h5 : c ≠ '\x0b' := by rintro rfl; exact absurd h (by decide)
  have h6 : c ≠ '\x0c' := by rintro rfl; exact absurd h (by decide)
  simp [h1, h2, h3, h4, h5, h6]

theorem dropWhile_eq_self_of_none {p : Char → Bool} (l : List Char)
    (h : ∀ c ∈ l, p c = false) : l.dropWhile p = l := by
  cases l with
  | nil => rfl
  | cons a t =>
      rw [List.dropWhile_cons]
      simp [h a (List.mem_cons_self a t)]

theorem pyStrip_of_digits (s : String) (h : s.data.all Char.isDigit = true) :
    pyStrip s = s := by
  have hall : ∀ c ∈ s.data, isPySpace c = false := by
    intro c hc
    exact digit_not_pyspace c (by
      have := List.all_eq_true.mp h c hc
      simpa using this)
  unfold pyStrip
  rw [dropWhile_eq_self_of_none s.data hall]
  rw [dropWhile_eq_self_of_none s.data.reverse
    (fun c hc => hall c (List.mem_reverse.mp hc))]
  rw [List.reverse_reverse]

/-! ### Claims C2 and C10 -/

theorem validate_ok_characterization (v r : String) :
    validate_numbers v = Except.ok r ↔
      (pyStrip v ≠ "" ∧ pyIsDigitStr (pyStrip v) = true ∧ r = pyStrip v) := by
  unfold validate_numbers
  by_cases h1 : v = "" ∨ pyStrip v = ""
  · rw [if_pos h1]
    constructor
    · intro h; cases h
    · rintro ⟨hne, -, -⟩
      rcases h1 with h1 | h1
      · subst h1; exact absurd rfl hne
      · exact absurd h1 hne
  · rw [if_neg h1]
    push_neg at h1
    by_cases h2 : pyIsDigitStr (pyStrip v) = true
    · rw [if_neg (by simpa using h2)]
      constructor
      · intro h
        exact ⟨h1.2, h2, (Except.ok.injEq _ _).mp h.symm⟩
      · rintro ⟨-, -, rfl⟩; rfl
    · rw [if_pos (by simpa using h2)]
      constructor
      · intro h; cases h
      · rintro ⟨-, hd, -⟩; exact absurd hd h2

/-- Claim C2 (as stated) is refuted: the input `" 1"` contains a non-digit
character (a leading space), yet `validate_numbers` accepts it, because the
validator strips whitespace before testing for digits. -/
theorem c2_counterexample_space_accepted :
    validate_numbers " 1" = Except.ok "1" ∧
      (" 1").data.all Char.isDigit = false := by
  constructor
  · rfl
  · rfl

/-- Claim C2 (amended): `validate_numbers` accepts an input string if and
only if the input stripped of leading and trailing whitespace is a
non-empty all-digit string; empty inputs, whitespace-only inputs and inputs
whose stripped form contains a non-digit character are rejected with an
error. -/
theorem c2_accepts_iff_stripped_digit_string (v : String) :
    (∃ r, validate_numbers v = Except.ok r) ↔
      (pyStrip v ≠ "" ∧ pyIsDigitStr (pyStrip v) = true) := by
  constructor
  · rintro ⟨r, h⟩
    have := (validate_ok_characterization v r).mp h
    exact ⟨this.1, this.2.1⟩
  · rintro ⟨h1, h2⟩
    exact ⟨pyStrip v, (validate_ok_characterization v (pyStrip v)).mpr ⟨h1, h2, rfl⟩⟩

/-- Witness for C2 (amended) at the concrete input `" 42 "`. -/
theorem c2_accepts_iff_witness :
    ∃ r, validate_numbers " 42 " = Except.ok r :=
  (c2_accepts_iff_stripped_digit_string " 42 ").mpr ⟨by decide, by rfl⟩

/-- Claim C10: on every accepted input the validator returns the
whitespace-stripped input, the returned value is a non-empty all-digit
string, and validating the returned value again returns it unchanged. -/
theorem c10_validate_strip_idempotent (v r : String)
    (h : validate_numbers v = Except.ok r) :
    r = pyStrip v ∧ r ≠ "" ∧ pyIsDigitStr r = true ∧
      validate_numbers r = Except.ok r := by
  obtain ⟨hne, hd, hr⟩ := (validate_ok_characterization v r).mp h
  subst hr
  have hall : (pyStrip v).data.all Char.isDigit = true :=
    (Bool.and_eq_true _ _).mp hd |>.2
  have hfix : pyStrip (pyStrip v) = pyStrip v := pyStrip_of_digits _ hall
  refine ⟨rfl, hne, hd, ?_⟩
  exact (validate_ok_characterization (pyStrip v) (pyStrip v)).mpr
    ⟨by rwa [hfix], by rwa [hfix], hfix.symm⟩

/-- Witness for C10 at the concrete input `" 42 "`. -/
theorem c10_validate_witness :
    "42" = pyStrip " 42 " ∧ "42" ≠ "" ∧ pyIsDigitStr "42" = true ∧
      validate_numbers "42" = Except.ok "42" :=
  c10_validate_strip_idempotent " 42 " "42" (by rfl)

/-! ## Constants of `automate_anem_form` (anem_automation.py lines 227-299) -/

def pre_inscription_url : String := "https://minha.anem.dz/pre_inscription"

def pre_rendez_vous_url : String := "https://minha.anem.dz/pre_rendez_vous"

/-- The localized "no appointment available" phrase (line 299). -/
def target_message : String := "نعتذر منكم ! لا يوجد أي موعد متاح حاليا."

/-! ## The post-submission decision (anem_automation.py lines 295-336)

After the settle delay the code reads `current_url` and `page_source` and
decides among three outcomes.  `play_sound` is called only in the
possible-slot branch; we record whether it was invoked (its own success or
failure at actually producing audio does not influence control flow). -/

inductive RunOutcome where
  | noSlotSuccess
  | possibleSlot
  | authFailure
  | timeoutError
  | elementNotFound
  | unexpectedError
  deriving DecidableEq, Repr

/-- The three-way branch of lines 301-336: given the final URL and page
source, produce the outcome classification, the Python return value, and
whether `play_sound` was invoked. -/
def postSubmitDecision (current_url page_source : String) :
    RunOutcome × Bool × Bool :=
  if pyStartsWith current_url pre_rendez_vous_url then
    if pyContainsSub page_source target_message then
      (RunOutcome.noSlotSuccess, true, false)
    else
      (RunOutcome.possibleSlot, false, true)
  else
    (RunOutcome.authFailure, false, false)

/-! ## The `finally` block (anem_automation.py lines 349-385)

The block calls `inspect.stack()` and reads `stack[1].frame.f_locals`.
`stack[0]` is the frame of `automate_anem_form` itself (where
`pre_rendez_vous_url`, `current_url`, `page_source` and `target_message`
live); `stack[1]` is the frame of the CALLER (`main`, or the module), whose
locals contain none of those names, so every `f_locals.get` returns `None`.
We embed the frame lookup as a record of `Option String`s and instantiate
it both with what the code actually reads (the caller's frame) and with the
values of the function's own frame, to compare against the intent stated in
the comments on lines 329 and 350-358. -/

structure FrameLocals where
  pre_rendez_vous_url : Option String
  current_url : Option String
  page_source : Option String
  target_message : Option String
  deriving DecidableEq, Repr

/-- Python truthiness of `f_locals.get(name, None)`: `None` and the empty
string are falsy. -/
def pyTruthy : Option String → Bool
  | none => false
  | some s => !(s = "")

/-- Lines 360-375: compute `called_from_appointments_available` from the
inspected frame's locals, mirroring the nested `if`s and the `and`-chains
exactly. -/
def called_from_appointments_available (L : FrameLocals) : Bool :=
  if pyTruthy L.pre_rendez_vous_url && pyTruthy L.current_url then
    match L.pre_rendez_vous_url, L.current_url with
    | some pu, some cu =>
        if pyStartsWith cu pu then
          match L.page_source, L.target_message with
          | some ps, some tm =>
              pyTruthy (some ps) && pyTruthy (some tm) && !(pyContainsSub ps tm)
          | _, _ => false
        else false
    | _, _ => false
  else false

/-- The frame the code actually inspects: `stack[1]` is the caller's frame
(`main` at line 395, or the module scope), which binds none of the four
names, so every lookup yields `None`. -/
def callerFrameLocals : FrameLocals :=
  { pre_rendez_vous_url := none, current_url := none,
    page_source := none, target_message := none }

/-- The locals of `automate_anem_form`'s own frame (`stack[0]`) at the end
of a run that reached the decision point with the given URL and page
source — the frame the comments on lines 360-361 say the code means to
read. -/
def ownFrameLocals (current_url page_source : String) : FrameLocals :=
  { pre_rendez_vous_url := some pre_rendez_vous_url,
    current_url := some current_url,
    page_source := some page_source,
    target_message := some target_message }

/-- Line 379: the browser is closed exactly when
`called_from_appointments_available` is false for the inspected frame. -/
def finallyClosesBrowser (L : FrameLocals) : Bool :=
  !(called_from_appointments_available L)

/-! ## Whole-run model of `automate_anem_form` (lines 205-385)

The `try` body either completes (reaching the decision of lines 295-336
with some final URL and page source) or raises one of the exceptions
caught by lines 338-348; the payload strings stand for arbitrary exception
messages, which the handlers only print.  In every case the `finally`
block then runs, inspecting `stack[1]` — the caller's frame
(`callerFrameLocals`). -/

inductive BodyResult where
  | completed (current_url page_source : String)
  | timeoutExc (msg : String)
  | noSuchElementExc (msg : String)
  | otherExc (msg : String)
  deriving DecidableEq, Repr

/-- Observable result of one run of `automate_anem_form`: the Python
return value, whether `play_sound` was invoked, and whether the `finally`
block called `driver.quit()`. -/
structure RunResult where
  returnValue : Bool
  soundPlayed : Bool
  browserClosed : Bool
  deriving DecidableEq, Repr

/-- `automate_anem_form` after the dialog phase: outcome classification
plus the observable run result.  The exception handlers (lines 338-348)
each return `False` and play no sound; the `finally` block (lines
349-385) decides browser closure from the caller's frame in every case. -/
def automate_anem_form (body : BodyResult) : RunOutcome × RunResult :=
  match body with
  | BodyResult.completed url page =>
      let d := postSubmitDecision url page
      (d.1, { returnValue := d.2.1, soundPlayed := d.2.2,
              browserClosed := finallyClosesBrowser callerFrameLocals })
  | BodyResult.timeoutExc _ =>
      (RunOutcome.timeoutError,
       { returnValue := false, soundPlayed := false,
         browserClosed := finallyClosesBrowser callerFrameLocals })
  | BodyResult.noSuchElementExc _ =>
      (RunOutcome.elementNotFound,
       { returnValue := false, soundPlayed := false,
         browserClosed := finallyClosesBrowser callerFrameLocals })
  | BodyResult.otherExc _ =>
      (RunOutcome.unexpectedError,
       { returnValue := false, soundPlayed := false,
         browserClosed := finallyClosesBrowser callerFrameLocals })

/-! ### Claim C1: the three-outcome decision procedure -/

/-- Claim C1: for every final URL and page text the post-submission
decision yields exactly one of three outcomes: redirected to
`pre_rendez_vous` with the localized no-appointment phrase present is
classified as success (`return True`) with no alert; redirected with the
phrase absent plays the alert and yields the possible-slot outcome
(`return False`); not redirected is classified as failure (`return False`)
with no alert. -/
theorem c1_three_outcome_decision (url page : String) :
    (pyStartsWith url pre_rendez_vous_url = true →
      pyContainsSub page target_message = true →
      postSubmitDecision url page = (RunOutcome.noSlotSuccess, true, false)) ∧
    (pyStartsWith url pre_rendez_vous_url = true →
      pyContainsSub page target_message = false →
      postSubmitDecision url page = (RunOutcome.possibleSlot, false, true)) ∧
    (pyStartsWith url pre_rendez_vous_url = false →
      postSubmitDecision url page = (RunOutcome.authFailure, false, false)) := by
  refine ⟨fun h1 h2 => ?_, fun h1 h2 => ?_, fun h1 => ?_⟩
  · simp [postSubmitDecision, h1, h2]
  · simp [postSubmitDecision, h1, h2]
  · simp [postSubmitDecision, h1]

/-- Witness for C1: all three branches at concrete URL/page inputs. -/
theorem c1_three_outcome_decision_witness :
    postSubmitDecision pre_rendez_vous_url target_message =
      (RunOutcome.noSlotSuccess, true, false) ∧
    postSubmitDecision pre_rendez_vous_url "<html></html>" =
      (RunOutcome.possibleSlot, false, true) ∧
    postSubmitDecision pre_inscription_url "<html></html>" =
      (RunOutcome.authFailure, false, false) :=
  ⟨(c1_three_outcome_decision pre_rendez_vous_url target_message).1
      (by rfl) (by rfl),
   (c1_three_outcome_decision pre_rendez_vous_url "<html></html>").2.1
      (by rfl) (by rfl),
   (c1_three_outcome_decision pre_inscription_url "<html></html>").2.2
      (by rfl)⟩

/-! ### Claim C3: browser closure and the `stack[1]` slip -/

/-- Claim C3 (code bug): in the possible-slot run (redirected to
`pre_rendez_vous`, phrase absent) the `finally` block nevertheless closes
the browser, because it inspects `stack[1]` — the caller's frame, where
none of the four variables exist — so `called_from_appointments_available`
is always `False`.  Had it inspected the function's own frame (`stack[0]`),
as the comments on lines 329 and 360-361 intend, the condition would hold
and the browser would stay open; and indeed the browser is closed in every
run whatsoever. -/
theorem c3_browser_closed_even_on_possible_slot :
    (automate_anem_form
        (BodyResult.completed pre_rendez_vous_url "<html></html>")).1 =
      RunOutcome.possibleSlot ∧
    (automate_anem_form
        (BodyResult.completed pre_rendez_vous_url "<html></html>")).2.browserClosed
      = true ∧
    called_from_appointments_available
        (ownFrameLocals pre_rendez_vous_url "<html></html>") = true ∧
    ∀ body : BodyResult, (automate_anem_form body).2.browserClosed = true := by
  refine ⟨rfl, rfl, rfl, fun body => ?_⟩
  cases body <;> rfl

/-! ### Claim C6: timeouts are caught, reported as failure, no alert -/

/-- Claim C6: whenever the `try` body raises a `TimeoutException` (with
any message), the handler on lines 338-341 catches it, the function
returns the failure value `False`, and no alert sound is played (the
browser also ends up closed). -/
theorem c6_timeout_caught_failure_no_alert (msg : String) :
    automate_anem_form (BodyResult.timeoutExc msg) =
      (RunOutcome.timeoutError,
       { returnValue := false, soundPlayed := false, browserClosed := true }) :=
  rfl

/-! ## `wait_for_dialog_with_retry` (anem_automation.py lines 90-146)

Each loop iteration interacts with the browser: the dialog-button wait
either succeeds (`return True, False` on line 126) or raises a
`TimeoutException`, whose handler (lines 128-143) reads the current URL
and page source and — in BOTH branches — returns.  The per-iteration
browser behaviour is an environment `env : Nat → AttemptOut` giving, for
each attempt index, whether the dialog button became clickable or the
wait timed out with the page then showing the given URL and source.
Falling off the loop (line 145-146) returns `False, False`.  The result
carries the attempt count actually consumed so the retry bound can be
stated. -/

inductive AttemptOut where
  | found
  | timedOut (current_url page_source : String)
  deriving DecidableEq, Repr

/-- Lines 132-137: the login-page markers checked by the timeout
handler. -/
def login_indicators (current_url page_source : String) : Bool :=
  pyContainsSub page_source "numeroWassit" ||
  pyContainsSub page_source "numeroPieceIdentite" ||
  pyContainsSub current_url "pre_inscription" ||
  pyContainsSub (pyLower current_url) "login"

/-- The `for attempt in range(max_retries)` loop.  Every branch of the
loop body returns: line 126 on success, lines 138-143 in the timeout
handler.  The `fuel` argument is the number of iterations `range` has
left; the returned `Nat` is the number of attempts performed. -/
def dialogLoop (env : Nat → AttemptOut) : Nat → Nat → (Bool × Bool) × Nat
  | 0, attempt => ((false, false), attempt)
  | _ + 1, attempt =>
      match env attempt with
      | AttemptOut.found => ((true, false), attempt + 1)
      | AttemptOut.timedOut url page =>
          if login_indicators url page then ((false, true), attempt + 1)
          else ((false, false), attempt + 1)

/-- `wait_for_dialog_with_retry(driver, wait, max_retries=3)`: result is
`((success, is_still_on_login_page), attempts_performed)`. -/
def wait_for_dialog_with_retry (env : Nat → AttemptOut)
    (max_retries : Nat := 3) : (Bool × Bool) × Nat :=
  dialogLoop env max_retries 0

/-! ### Claim C4: the retry bound -/

/-- Claim C4 (code bug): with `max_retries = 3` the loop performs exactly
one attempt in every environment — the success branch returns, and the
`except TimeoutException` handler returns in both of its branches, so no
second iteration is ever reached; in particular an environment in which
the dialog never appears is reported as failed after a single attempt,
not after 3. -/
theorem c4_single_attempt_only :
    (∀ env : Nat → AttemptOut, (wait_for_dialog_with_retry env 3).2 = 1) ∧
    wait_for_dialog_with_retry
        (fun _ => AttemptOut.timedOut "https://example.org/other" "<html></html>") 3 =
      ((false, false), 1) := by
  constructor
  · intro env
    have hstep : wait_for_dialog_with_retry env 3 =
        (match env 0 with
         | AttemptOut.found => ((true, false), 1)
         | AttemptOut.timedOut url page =>
             if login_indicators url page then ((false, true), 1)
             else ((false, false), 1)) := rfl
    rw [hstep]
    cases env 0 with
    | found => rfl
    | timedOut url page => split <;> first | rfl | (split <;> rfl)
  · rfl

/-! ## The dialog phase of `automate_anem_form` (lines 261-289)

`wait_for_dialog_with_retry` is called once; only when it reports
`(False, True)` — dialog never appeared and the page still matches the
login markers — is `refill_form_and_retry` called (which clicks the
submit button again and reports whether the click succeeded), and only
when that click succeeded is the dialog wait repeated, once.  No path
calls `refill_form_and_retry` a second time. -/

/-- Trace of the dialog phase: how many times `refill_form_and_retry` was
called (the resubmission), how many times `wait_for_dialog_with_retry`
was called, and whether the confirmation button was clicked in the end. -/
structure DialogPhaseTrace where
  refillCalls : Nat
  dialogWaitCalls : Nat
  confirmClicked : Bool
  deriving DecidableEq, Repr

/-- Lines 261-289 of `automate_anem_form`: the first dialog wait runs
under environment `env1`; `refillOk` is the return value of
`refill_form_and_retry` (line 159 / 162); a repeated wait runs under
`env2`. -/
def dialogPhase (env1 : Nat → AttemptOut) (refillOk : Bool)
    (env2 : Nat → AttemptOut) : DialogPhaseTrace :=
  let w1 := (wait_for_dialog_with_retry env1 3).1
  if w1.1 then
    { refillCalls := 0, dialogWaitCalls := 1, confirmClicked := true }
  else if w1.2 then
    if refillOk then
      let w2 := (wait_for_dialog_with_retry env2 3).1
      { refillCalls := 1, dialogWaitCalls := 2, confirmClicked := w2.1 }
    else
      { refillCalls := 1, dialogWaitCalls := 1, confirmClicked := false }
  else
    { refillCalls := 0, dialogWaitCalls := 1, confirmClicked := false }

/-- Claim C5: when the first dialog wait reports `(False, True)` (dialog
never appeared and login-page markers still match), the form is
resubmitted exactly once (`refill_form_and_retry` is called once); when
that resubmission's click succeeds the dialog wait is repeated exactly
once (two waits in total); and no execution whatsoever calls the
resubmission more than once. -/
theorem c5_resubmit_once (env1 : Nat → AttemptOut) (refillOk : Bool)
    (env2 : Nat → AttemptOut)
    (h : (wait_for_dialog_with_retry env1 3).1 = (false, true)) :
    (dialogPhase env1 refillOk env2).refillCalls = 1 ∧
    (refillOk = true → (dialogPhase env1 refillOk env2).dialogWaitCalls = 2) ∧
    (∀ (e1 : Nat → AttemptOut) (r : Bool) (e2 : Nat → AttemptOut),
      (dialogPhase e1 r e2).refillCalls ≤ 1) := by
  refine ⟨?_, ?_, ?_⟩
  · unfold dialogPhase
    rw [h]
    cases refillOk <;> rfl
  · intro hr
    subst hr
    unfold dialogPhase
    rw [h]
    rfl
  · intro e1 r e2
    unfold dialogPhase
    rcases (wait_for_dialog_with_retry e1 3).1 with ⟨s, l⟩
    cases s <;> cases l <;> cases r <;> simp

/-- Witness for C5: a concrete environment in which every dialog wait
times out on the pre-inscription page and the refill click succeeds. -/
theorem c5_resubmit_once_witness :
    (dialogPhase (fun _ => AttemptOut.timedOut pre_inscription_url "<html></html>")
        true (fun _ => AttemptOut.found)).refillCalls = 1 ∧
    (dialogPhase (fun _ => AttemptOut.timedOut pre_inscription_url "<html></html>")
        true (fun _ => AttemptOut.found)).dialogWaitCalls = 2 :=
  have h := c5_resubmit_once
    (fun _ => AttemptOut.timedOut pre_inscription_url "<html></html>")
    true (fun _ => AttemptOut.found) (by rfl)
  ⟨h.1, h.2.1 rfl⟩

/-! ## Settings construction and `get_settings` (lines 165-182; fetch.py 10-19)

Pydantic builds `AnemSettings` from the environment variables `N1` and
`N2`: a missing variable is a validation error, and each present value
passes through `validate_numbers`.  `get_settings` converts any
construction failure into printed guidance followed by `sys.exit(1)` —
before `setup_driver` is ever reached. -/

structure AnemSettings where
  n1 : String
  n2 : String
  deriving DecidableEq, Repr

/-- Construction of `AnemSettings` from the values of the `N1` and `N2`
environment variables (`none` = unset). -/
def anemSettingsBuild (envN1 envN2 : Option String) :
    Except String AnemSettings :=
  match envN1, envN2 with
  | none, _ => Except.error "Field required: N1"
  | _, none => Except.error "Field required: N2"
  | some a, some b =>
      match validate_numbers a, validate_numbers b with
      | Except.error e, _ => Except.error e
      | _, Except.error e => Except.error e
      | Except.ok a2, Except.ok b2 => Except.ok { n1 := a2, n2 := b2 }

/-- The lines printed by `get_settings` before `sys.exit(1)`
(lines 171-181), given the exception text. -/
def settings_guidance (e : String) : List String :=
  [ "❌ Error loading settings: " ++ e,
    "",
    "Please set the following environment variables:",
    "  N1=your_wassit_number",
    "  N2=your_piece_identite_number",
    "",
    "Example:",
    "  export N1=123456789",
    "  export N2=987654321",
    "  python anem_automation.py",
    "" ]

inductive GetSettingsResult where
  | ok (s : AnemSettings)
  | exit (printed : List String) (code : Nat)
  deriving DecidableEq, Repr

/-- `get_settings()` (lines 165-182). -/
def get_settings (envN1 envN2 : Option String) : GetSettingsResult :=
  match anemSettingsBuild envN1 envN2 with
  | Except.ok s => GetSettingsResult.ok s
  | Except.error e => GetSettingsResult.exit (settings_guidance e) 1

/-! ## The whole process (`automate_anem_form` from line 217, and `main`)

`automate_anem_form` calls `get_settings()` first (line 217) and
`setup_driver()` only afterwards (line 222); `setup_driver` itself calls
`sys.exit(1)` if the Chrome driver cannot be created (lines 66-69).
`main` (lines 388-404) calls `automate_anem_form` and returns normally
whatever its boolean result was, so the interpreter exits with code 0
unless a `SystemExit` (from one of the two `sys.exit(1)` sites) or some
other exception escapes. -/

inductive ProcessOutcome where
  | exited (printed : List String) (code : Nat) (beforeDriverSetup : Bool)
  | finished (outcome : RunOutcome) (r : RunResult)
  deriving DecidableEq, Repr

/-- The process-level flow: settings first; then driver setup (`none` =
success, `some e` = failure with message `e`); then the run body. -/
def automate_full (envN1 envN2 : Option String) (driverErr : Option String)
    (body : BodyResult) : ProcessOutcome :=
  match get_settings envN1 envN2 with
  | GetSettingsResult.exit lines code => ProcessOutcome.exited lines code true
  | GetSettingsResult.ok _ =>
      match driverErr with
      | some e =>
          ProcessOutcome.exited
            [ "Error setting up Chrome driver: " ++ e,
              "Make sure you have Chrome browser installed" ] 1 false
      | none =>
          let p := automate_anem_form body
          ProcessOutcome.finished p.1 p.2

/-- The process exit code: 0 when `main` returns normally, otherwise the
`sys.exit` code. -/
def main_exit_code (envN1 envN2 : Option String) (driverErr : Option String)
    (body : BodyResult) : Nat :=
  match automate_full envN1 envN2 driverErr body with
  | ProcessOutcome.exited _ c _ => c
  | ProcessOutcome.finished _ _ => 0

/-! ### Claims C7 and C8 -/

/-- Claim C7: whenever settings construction fails (missing or invalid
`N1`/`N2`), the process exits with code 1 before the driver is set up
(`beforeDriverSetup = true`), and the printed guidance names the `N1` and
`N2` environment variables. -/
theorem c7_settings_failure_aborts (envN1 envN2 : Option String)
    (driverErr : Option String) (body : BodyResult) (e : String)
    (h : anemSettingsBuild envN1 envN2 = Except.error e) :
    automate_full envN1 envN2 driverErr body =
      ProcessOutcome.exited (settings_guidance e) 1 true ∧
    "  N1=your_wassit_number" ∈ settings_guidance e ∧
    "  N2=your_piece_identite_number" ∈ settings_guidance e := by
  refine ⟨?_, ?_, ?_⟩
  · unfold automate_full get_settings
    rw [h]
  · simp [settings_guidance]
  · simp [settings_guidance]

/-- Witness for C7: both environment variables unset. -/
theorem c7_settings_failure_witness :
    automate_full none none none (BodyResult.timeoutExc "t") =
      ProcessOutcome.exited (settings_guidance "Field required: N1") 1 true ∧
    "  N1=your_wassit_number" ∈ settings_guidance "Field required: N1" ∧
    "  N2=your_piece_identite_number" ∈
      settings_guidance "Field required: N1" :=
  c7_settings_failure_aborts none none none (BodyResult.timeoutExc "t")
    "Field required: N1" (by rfl)

theorem automate_full_exit_code_one (envN1 envN2 : Option String)
    (driverErr : Option String) (body : BodyResult)
    (lines : List String) (c : Nat) (b : Bool)
    (h : automate_full envN1 envN2 driverErr body =
      ProcessOutcome.exited lines c b) : c = 1 := by
  unfold automate_full get_settings at h
  cases hE : anemSettingsBuild envN1 envN2 with
  | error e => rw [hE] at h; cases h; rfl
  | ok s =>
      rw [hE] at h
      cases driverErr with
      | some e => cases h; rfl
      | none => cases h

/-- Claim C8: whenever no `SystemExit` occurs (the run finishes and
`main` returns normally) the process exit code is 0 regardless of the
run's outcome, and a nonzero exit code can only come from one of the two
explicit `sys.exit(1)` sites, i.e. an `exited` outcome with code 1. -/
theorem c8_exit_zero_unless_abort (envN1 envN2 : Option String)
    (driverErr : Option String) (body : BodyResult) :
    ((∃ o r, automate_full envN1 envN2 driverErr body =
        ProcessOutcome.finished o r) →
      main_exit_code envN1 envN2 driverErr body = 0) ∧
    (main_exit_code envN1 envN2 driverErr body ≠ 0 →
      ∃ lines b, automate_full envN1 envN2 driverErr body =
        ProcessOutcome.exited lines 1 b) := by
  constructor
  · rintro ⟨o, r, hfin⟩
    unfold main_exit_code
    rw [hfin]
  · intro hne
    unfold main_exit_code at hne
    cases hA : automate_full envN1 envN2 driverErr body with
    | finished o r => rw [hA] at hne; exact absurd rfl hne
    | exited lines c b =>
        have hc := automate_full_exit_code_one envN1 envN2 driverErr body
          lines c b hA
        subst hc
        exact ⟨lines, b, rfl⟩

/-- Witness for C8: a completed run (authentication-failure outcome)
exits 0; unset credentials exit 1. -/
theorem c8_exit_zero_witness :
    main_exit_code (some "1") (some "2") none
        (BodyResult.completed pre_inscription_url "<html></html>") = 0 ∧
    ∃ lines b, automate_full none none none (BodyResult.timeoutExc "t") =
        ProcessOutcome.exited lines 1 b :=
  ⟨(c8_exit_zero_unless_abort (some "1") (some "2") none
      (BodyResult.completed pre_inscription_url "<html></html>")).1
      ⟨RunOutcome.authFailure, _, rfl⟩,
   (c8_exit_zero_unless_abort none none none (BodyResult.timeoutExc "t")).2
      (by decide)⟩

/-! ## `fetch_candidate_validation` (fetch.py lines 22-50)

The function takes `n1` and `n2` but builds the request from a hardcoded
URL literal whose `wassitNumber` and `identityDocNumber` query parameters
are baked-in constants; the arguments are never interpolated.  We embed
the observable request it issues. -/

structure HttpRequest where
  url : String
  headers : List (String × String)
  verifyTls : Bool
  deriving DecidableEq, Repr

/-- The request issued by `fetch_candidate_validation(n1, n2)`.  The
parameters are deliberately unused: the source binds them but never
interpolates them into the request. -/
def fetch_candidate_validation_request (n1 n2 : String) : HttpRequest :=
  { url := "https://ac-controle.anem.dz/AllocationChomage/api/validateCandidate/query?wassitNumber=320600000120&identityDocNumber=100001144000120009",
    headers :=
      [ ("accept", "application/json, text/plain, */*"),
        ("accept-language", "en-US,en;q=0.9,ar;q=0.8"),
        ("sec-ch-ua",
          "\"Chromium\";v=\"142\", \"Google Chrome\";v=\"142\", \"Not_A Brand\";v=\"99\""),
        ("sec-ch-ua-mobile", "?0"),
        ("sec-ch-ua-platform", "\"Windows\""),
        ("sec-fetch-dest", "empty"),
        ("sec-fetch-mode", "cors"),
        ("sec-fetch-site", "same-site"),
        ("referer", "https://minha.anem.dz/") ],
    verifyTls := false }

/-- Claim C9: the request issued by `fetch_candidate_validation` is
identical for every pair of credential arguments — the URL (including the
`wassitNumber` and `identityDocNumber` query parameters) is a fixed
constant, so the observable request leaks nothing about, and depends in
no way on, the inputs. -/
theorem c9_request_independent_of_credentials
    (n1 n2 n1a n2a : String) :
    fetch_candidate_validation_request n1 n2 =
      fetch_candidate_validation_request n1a n2a ∧
    pyContainsSub (fetch_candidate_validation_request n1 n2).url
      "wassitNumber=320600000120" = true ∧
    pyContainsSub (fetch_candidate_validation_request n1 n2).url
      "identityDocNumber=100001144000120009" = true :=
  ⟨rfl, rfl, rfl⟩
